import Mathlib

/-!
Shallow embedding of the interactive children-story generator (`src/main.py`)
and verification of the frozen claims about it.

Modelling conventions:
* Python `str` values are modelled as `List Char` (alias `Str`), so that all
  string operations reduce inside the kernel.  The helpers `lowerS`, `upperS`,
  `stripS`, `containsS`, `splitChS`, `isDigitS`, `toNatS` mirror the exact
  Python operations used by the source (`lower`, `upper`, `strip`, `in`,
  `split` — every `split` in the source uses a single-character separator —
  `isdigit`, `int`).
* Python dictionaries are modelled as insertion-ordered association lists
  (`dictSet` overwrites in place, appends new keys at the end — CPython dict
  semantics).
* The OpenAI backend is opaque.  Each model call of a turn is represented by
  an oracle field holding the backend result for that call
  (`Option Str`: `none` is a failed call).  Prompt strings never influence
  the backend result in the source either, so prompt construction is not
  needed by any claim and is not modelled.
* Python truthiness of `Optional[str]` (`if not x`) is captured by
  `isTruthy` / `orElseS`: both `None` and `""` are falsy.
-/

/-- Python strings, as character lists (so everything kernel-reduces). -/
abbrev Str : Type := List Char

/-- Character data of a Lean string literal. -/
def str (s : String) : Str := s.data

/-- Python `s.lower()` (ASCII, as in all the source's keyword data). -/
def lowerS (s : Str) : Str := s.map Char.toLower

/-- Python `s.upper()`. -/
def upperS (s : Str) : Str := s.map Char.toUpper

/-- Python `s.strip()`: drop leading and trailing whitespace. -/
def stripS (s : Str) : Str :=
  ((s.dropWhile Char.isWhitespace).reverse.dropWhile Char.isWhitespace).reverse

/-- Does `s` start with `p`? -/
def startsWithS : Str → Str → Bool
  | _, [] => true
  | [], _ :: _ => false
  | c :: s, d :: p => c == d && startsWithS s p

/-- Python `pat in s`: substring containment (the empty pattern matches). -/
def containsS : Str → Str → Bool
  | [], pat => pat.isEmpty
  | c :: t, pat => startsWithS (c :: t) pat || containsS t pat

/-- Python `s.split(sep)` for a single-character separator (the only kind the
source uses: `split('|')`, `split(':')`, `split('\n')`, `split(',')`).
Always returns a non-empty list; `"".split(c) == ['']`. -/
def splitChS (sep : Char) : Str → List Str
  | [] => [[]]
  | c :: t =>
    match splitChS sep t with
    | [] => [[]]
    | h :: r => if c == sep then [] :: h :: r else (c :: h) :: r

/-- Python `s.isdigit()` (false on the empty string). -/
def isDigitS (s : Str) : Bool := !s.isEmpty && s.all Char.isDigit

/-- Python `int(s)` on a digit string. -/
def toNatS (s : Str) : Nat := s.foldl (fun a c => a * 10 + (c.toNat - 48)) 0

/-- Python truthiness of an `Optional[str]`: `None` and `""` are falsy. -/
def isTruthy : Option Str → Bool
  | none => false
  | some s => !s.isEmpty

/-- Python `x if x else y` on an `Optional[str]` `x`. -/
def orElseS (x : Option Str) (y : Str) : Str :=
  match x with
  | none => y
  | some s => if s.isEmpty then y else s

/-- Python `d[k] = v` on an insertion-ordered association list: overwrite in
place, append a fresh key at the end (CPython dict semantics). -/
def dictSet {α : Type} (k : Str) (v : α) : List (Str × α) → List (Str × α)
  | [] => [(k, v)]
  | (k0, v0) :: rest => if k0 == k then (k, v) :: rest else (k0, v0) :: dictSet k v rest

/-- Python `d.get(k, dflt)`. -/
def dictGetD {α : Type} (k : Str) (dflt : α) : List (Str × α) → α
  | [] => dflt
  | (k0, v0) :: rest => if k0 == k then v0 else dictGetD k dflt rest

/-- The `Character` dataclass of `src/main.py` (lines 21–27). -/
structure Character where
  name : Str
  description : Str
  personality : List Str
  relationships : List (Str × Str) := []
deriving DecidableEq, Repr

/-- One record appended by `StoryMemory.add_story` (lines 41–47). -/
structure HistoryRecord where
  story : Str
  genre : Str
  request : Str
  quality_score : Nat
  characters : List Str
deriving DecidableEq, Repr

/-- The `StoryMemory` dataclass (lines 29–37).  `user_preferences` holds the
single key `preferred_genres` in the source; it is modelled directly as that
genre-count mapping (an absent key behaves exactly like an empty mapping in
every use site). -/
structure StoryMemory where
  current_story : Str := []
  genre : Str := []
  characters : List (Str × Character) := []
  world_details : List (Str × Str) := []
  story_history : List HistoryRecord := []
  user_preferences : List (Str × Nat) := []
deriving DecidableEq, Repr

/-- `StoryMemory.add_story` (lines 39–49): append a history record, then set
`current_story` and `genre`. -/
def StoryMemory.add_story (m : StoryMemory) (story genre user_request : Str)
    (quality_score : Nat) : StoryMemory :=
  { m with
    story_history := m.story_history ++
      [{ story := story, genre := genre, request := user_request,
         quality_score := quality_score, characters := m.characters.map Prod.fst }],
    current_story := story,
    genre := genre }

/-- The `adventure` keyword list of `detect_genre` (line 94). -/
def adventureKws : List Str :=
  [str "adventure", str "quest", str "journey", str "explore", str "brave", str "hero"]

/-- The `fairy_tale` keyword list (line 95). -/
def fairyTaleKws : List Str :=
  [str "princess", str "prince", str "magic", str "fairy", str "castle", str "witch",
   str "dragon"]

/-- The `educational` keyword list (line 96). -/
def educationalKws : List Str :=
  [str "learn", str "teach", str "school", str "facts", str "science", str "math",
   str "educational"]

/-- The `friendship` keyword list (line 97). -/
def friendshipKws : List Str :=
  [str "friend", str "friendship", str "together", str "help", str "kind", str "caring"]

/-- The `fantasy` keyword list (line 98). -/
def fantasyKws : List Str :=
  [str "magical", str "wizard", str "unicorn", str "fantasy", str "mystical",
   str "enchanted"]

/-- The genre keyword table of `detect_genre` (lines 93–99), in definition
order. -/
def genre_keywords : List (Str × List Str) :=
  [ (str "adventure", adventureKws),
    (str "fairy_tale", fairyTaleKws),
    (str "educational", educationalKws),
    (str "friendship", friendshipKws),
    (str "fantasy", fantasyKws) ]

/-- `sum(1 for keyword in keywords if keyword in request_lower)` (line 104). -/
def genreScore (request_lower : Str) (keywords : List Str) : Nat :=
  (keywords.filter (fun kw => containsS request_lower kw)).length

/-- The `genre_scores` mapping (lines 102–105), in table order. -/
def genreScores (user_request : Str) : List (Str × Nat) :=
  genre_keywords.map (fun p => (p.1, genreScore (lowerS user_request) p.2))

/-- Python `max(genre_scores, key=genre_scores.get)`: the first entry whose
score no later entry strictly exceeds (Python `max` keeps the earliest
maximal element). -/
def maxByScore : List (Str × Nat) → Str × Nat
  | [] => (str "adventure", 0)
  | p :: ps => ps.foldl (fun acc q => if q.2 > acc.2 then q else acc) p

/-- `GenrePromptEngine.detect_genre` (lines 87–109). -/
def detect_genre (user_request : Str) : Str :=
  let best := maxByScore (genreScores user_request)
  if best.2 > 0 then best.1 else str "adventure"

/-- The first entry of the score table attaining a given count (spec:
"ties broken by iteration order of the genre table — first definition
wins"). -/
def firstWithScore (m : Nat) : List (Str × Nat) → Str
  | [] => str "adventure"
  | p :: ps => if p.2 = m then p.1 else firstWithScore m ps

/-- The spec-side description of genre detection, written from the spec's
words for the C5 comparison: compute the keyword counts, take the maximal
count, return the first genre of the table attaining it, and return
`adventure` whenever all counts are zero. -/
def detect_genre_specModel (user_request : Str) : Str :=
  let scores := genreScores user_request
  let m : Nat := scores.foldl (fun a p => max a p.2) 0
  if m = 0 then str "adventure" else firstWithScore m scores

/-- The personality-trait loop of `extract_characters` (lines 204–208): the
last pipe-segment containing `personality:` (case-insensitively) yields the
trait list `part.split(':')[1].strip().split(',')`, each trait stripped. -/
def personalityOf (parts : List Str) : List Str :=
  parts.foldl
    (fun acc part =>
      if containsS (lowerS part) (str "personality:") then
        (splitChS ',' (stripS ((splitChS ':' part).getD 1 []))).map stripS
      else acc)
    []

/-- The per-line body of the extraction loop (lines 194–216): a line is
processed only if it contains both a colon and a pipe and its first
pipe-segment splits on `:` into at least two pieces; it then overwrites the
character named by the (stripped) text before the first colon.  The
`relationships` field is never populated. -/
def processLine (chars : List (Str × Character)) (line : Str) : List (Str × Character) :=
  if containsS line (str ":") && containsS line (str "|") then
    let parts := splitChS '|' line
    let name_desc := splitChS ':' (parts.headD [])
    if name_desc.length ≥ 2 then
      let name := stripS (name_desc.headD [])
      dictSet name
        { name := name, description := stripS (name_desc.getD 1 []),
          personality := personalityOf parts, relationships := [] } chars
    else chars
  else chars

/-- `extract_characters` (lines 174–216).  The extraction model call's result
is the oracle value `extraction`; only `memory.characters` is ever written. -/
def extract_characters (extraction : Option Str) (m : StoryMemory) : StoryMemory :=
  match extraction with
  | none => m
  | some result =>
    if result.isEmpty then m
    else { m with characters := (splitChS '\n' result).foldl processLine m.characters }

/-- Backend results for the (up to four) model calls of one
`generate_story` invocation: draft, evaluation, refinement, extraction. -/
structure GenOracle where
  draft : Option Str
  evaluation : Option Str
  refined : Option Str
  extraction : Option Str
deriving DecidableEq, Repr

/-- Result of `generate_story`: the returned optional story, the memory after
the call, and the story text the Character Extractor was invoked on
(`none` when extraction was not run). -/
structure GenResult where
  story : Option Str
  memory : StoryMemory
  extractedFrom : Option Str
deriving DecidableEq, Repr

/-- `generate_story` (lines 258–336).  For non-episodes the genre is detected
and stored in memory before any model call; a falsy draft aborts with `None`;
a falsy evaluation returns the draft at once (skipping refinement and
extraction); otherwise the refined text (or the draft, if refinement is
falsy) is returned, after running the Character Extractor on it for
non-episodes only. -/
def generate_story (o : GenOracle) (user_input : Str) (memory : StoryMemory)
    (is_episode : Bool) : GenResult :=
  let memory := if is_episode then memory else { memory with genre := detect_genre user_input }
  match o.draft with
  | none => { story := none, memory := memory, extractedFrom := none }
  | some initial_story =>
    if initial_story.isEmpty then { story := none, memory := memory, extractedFrom := none }
    else if !(isTruthy o.evaluation) then
      { story := some initial_story, memory := memory, extractedFrom := none }
    else
      let story := orElseS o.refined initial_story
      if is_episode then { story := some story, memory := memory, extractedFrom := none }
      else
        { story := some story, memory := extract_characters o.extraction memory,
          extractedFrom := some story }

/-- A user feedback record (`get_user_feedback`, lines 218–237). -/
structure Feedback where
  rating : Nat
  feedback : Str
deriving DecidableEq, Repr

/-- `get_user_feedback` (lines 218–237): the rating is the entered number when
it is a digit string between 1 and 5, else 0; free-text feedback is collected
only for ratings 1–2 and 4–5. -/
def get_user_feedback (rating_input text_input : Str) : Feedback :=
  let ri := stripS rating_input
  let rating := if isDigitS ri ∧ 1 ≤ toNatS ri ∧ toNatS ri ≤ 5 then toNatS ri else 0
  { rating := rating,
    feedback := if rating > 0 ∧ (rating ≤ 2 ∨ rating ≥ 4) then stripS text_input else [] }

/-- `revise_story_with_feedback` (lines 239–256); the Boolean records whether
the model was called.  Returns the input story untouched (no call) when the
feedback text is empty or the rating is at least 4; otherwise one model call,
falling back to the original story on a falsy result. -/
def revise_story_with_feedback (o : Option Str) (story : Str) (fb : Feedback)
    (user_request : Str) : Str × Bool :=
  if fb.feedback.isEmpty ∨ fb.rating ≥ 4 then (story, false)
  else (orElseS o story, true)

/-- `assess_story_quality` (lines 349–366): accepted only when the backend
result is truthy and contains `YES` after upper-casing. -/
def assess_story_quality (assessment : Option Str) : Bool :=
  match assessment with
  | none => false
  | some r => !r.isEmpty && containsS (upperS r) (str "YES")

/-- The validated result of `get_user_choice` (lines 368–381): the input loop
only ever returns one of `'1'`, `'2'`, `'3'`. -/
inductive MenuChoice
  | one
  | two
  | three
deriving DecidableEq, Repr

/-- Session-controller phases (spec §4.6). -/
inductive Phase
  | AwaitingFirstRequest
  | AwaitingNextAction
  | Done
deriving DecidableEq, Repr

/-- All console inputs and backend results consumed by one iteration of the
`main` loop (lines 404–475). -/
structure TurnInput where
  request : Str
  assessment : Option Str
  choice : MenuChoice
  gen : GenOracle
  rating_input : Str
  text_input : Str
  revision : Option Str
deriving DecidableEq, Repr

/-- The session-controller state: the memory, the `story_count` counter, and
whether the loop has been exited. -/
structure Session where
  memory : StoryMemory
  story_count : Nat
  done : Bool
deriving DecidableEq, Repr

/-- The state at the top of `main`'s loop (lines 400–402). -/
def initSession : Session := { memory := {}, story_count := 0, done := false }

/-- `user_input.lower() in ['quit', 'exit', 'q']` (line 430). -/
def isQuitKeyword (input : Str) : Bool :=
  lowerS input == str "quit" || lowerS input == str "exit" || lowerS input == str "q"

/-- The tail of a loop iteration once `user_input` and `is_episode` are fixed
(lines 430–475): quit check, empty-input reprompt, generation, feedback,
optional revision, `add_story`, counter and preference updates.  A failed
generation keeps the session but with the memory `generate_story` left
behind. -/
def runGeneration (t : TurnInput) (user_input : Str) (is_episode : Bool)
    (s : Session) : Session :=
  let r := generate_story t.gen user_input s.memory is_episode
  match r.story with
  | none => { s with memory := r.memory }
  | some story0 =>
    let fb := get_user_feedback t.rating_input t.text_input
    let story :=
      if fb.rating ≤ 2 ∧ ¬fb.feedback.isEmpty then
        (revise_story_with_feedback t.revision story0 fb user_input).1
      else story0
    let m1 := r.memory.add_story story r.memory.genre user_input fb.rating
    let prefs :=
      dictSet m1.genre (dictGetD m1.genre 0 m1.user_preferences + 1) m1.user_preferences
    let m2 := if fb.rating ≥ 4 then { m1 with user_preferences := prefs } else m1
    { memory := m2, story_count := s.story_count + 1, done := false }

/-- Quit / empty-input handling shared by every input path (lines 430–437). -/
def continueTurn (t : TurnInput) (user_input : Str) (is_episode : Bool)
    (s : Session) : Session :=
  if isQuitKeyword user_input then { s with done := true }
  else if user_input.isEmpty then s
  else runGeneration t user_input is_episode s

/-- `memory.characters.clear()` (lines 421 and 428). -/
def clearCharacters (s : Session) : Session :=
  { s with memory := { s.memory with characters := [] } }

/-- One full iteration of `main`'s `while True` loop (lines 404–475):
with no story yet, read a request for a fresh story; otherwise assess the
current story and either offer the 3-way menu (episode / new story / quit)
or fall back to a fresh-story prompt with the character map cleared. -/
def sessionStep (t : TurnInput) (s : Session) : Session :=
  if s.done then s
  else if s.story_count = 0 then
    continueTurn t (stripS t.request) false s
  else if assess_story_quality t.assessment then
    match t.choice with
    | MenuChoice.one => continueTurn t (stripS t.request) true s
    | MenuChoice.two => continueTurn t (stripS t.request) false (clearCharacters s)
    | MenuChoice.three => { s with done := true }
  else
    continueTurn t (stripS t.request) false (clearCharacters s)

/-- Run a session from the initial state over a list of turns. -/
def runSession (ts : List TurnInput) : Session :=
  ts.foldl (fun s t => sessionStep t s) initSession

/-- The controller phase of a session state (spec §4.6). -/
def Session.phase (s : Session) : Phase :=
  if s.done then Phase.Done
  else if s.story_count = 0 then Phase.AwaitingFirstRequest
  else Phase.AwaitingNextAction

example : detect_genre (str "A wizard") = str "fantasy" := by decide
example : detect_genre (str "") = str "adventure" := by decide
example : detect_genre (str "learn") = str "educational" := by decide
example : detect_genre (str "a brave little mouse") = str "adventure" := by decide
example : detect_genre (str "magic adventure") = str "adventure" := by decide

/-! ### Helper lemmas -/

/-- Folding a function that fixes every element of the list is the
identity. -/
theorem foldl_fixed {α β : Type} (f : α → β → α) (l : List β) (init : α)
    (h : ∀ b ∈ l, ∀ a, f a b = a) : l.foldl f init = init := by
  induction l generalizing init with
  | nil => rfl
  | cons x xs ih =>
    rw [List.foldl_cons, h x (List.mem_cons_self x xs)]
    exact ih init (fun b hb a => h b (List.mem_cons_of_mem x hb) a)

/-- `generate_story` never touches `current_story`, `story_history`,
`user_preferences` or `world_details`: it only writes `genre` (for
non-episodes) and `characters` (through extraction). -/
theorem generate_story_untouched_fields (o : GenOracle) (u : Str)
    (m : StoryMemory) (ep : Bool) :
    (generate_story o u m ep).memory.current_story = m.current_story ∧
    (generate_story o u m ep).memory.story_history = m.story_history ∧
    (generate_story o u m ep).memory.user_preferences = m.user_preferences ∧
    (generate_story o u m ep).memory.world_details = m.world_details := by
  unfold generate_story extract_characters
  cases o.draft with
  | none => cases ep <;> simp
  | some d =>
    cases ep <;> cases o.extraction <;>
      simp only [] <;> split_ifs <;> simp

/-- The returned story is `none` exactly when the draft result is falsy. -/
theorem generate_story_none_iff (o : GenOracle) (u : Str) (m : StoryMemory)
    (ep : Bool) :
    (generate_story o u m ep).story = none ↔ isTruthy o.draft = false := by
  unfold generate_story isTruthy
  cases o.draft with
  | none => cases ep <;> simp
  | some d => cases ep <;> simp only [] <;> split_ifs <;> simp_all

/-- With a truthy draft and a falsy evaluation, `generate_story` returns the
draft unchanged and does not run extraction. -/
theorem generate_story_eval_falsy (o : GenOracle) (u : Str) (m : StoryMemory)
    (ep : Bool) (d : Str) (hd : o.draft = some d) (hne : d.isEmpty = false)
    (he : isTruthy o.evaluation = false) :
    (generate_story o u m ep).story = some d ∧
    (generate_story o u m ep).extractedFrom = none := by
  unfold generate_story
  rw [hd]
  cases ep <;> simp [hne, he]

/-- With a truthy draft and a falsy refinement, `generate_story` returns the
draft unchanged. -/
theorem generate_story_refine_falsy (o : GenOracle) (u : Str) (m : StoryMemory)
    (ep : Bool) (d : Str) (hd : o.draft = some d) (hne : d.isEmpty = false)
    (hr : isTruthy o.refined = false) :
    (generate_story o u m ep).story = some d := by
  unfold generate_story
  rw [hd]
  have horelse : orElseS o.refined d = d := by
    unfold isTruthy at hr
    cases h : o.refined with
    | none => simp [orElseS]
    | some r => rw [h] at hr; simp_all [orElseS]
  cases ep <;> split_ifs <;> simp_all

/-- With a truthy draft and evaluation, `generate_story` returns the refined
text when it is truthy, else the draft; for non-episodes extraction runs on
exactly that returned text. -/
theorem generate_story_success (o : GenOracle) (u : Str) (m : StoryMemory)
    (ep : Bool) (d : Str) (hd : o.draft = some d) (hne : d.isEmpty = false)
    (he : isTruthy o.evaluation = true) :
    (generate_story o u m ep).story = some (orElseS o.refined d) ∧
    (generate_story o u m ep).extractedFrom =
      (if ep then none else some (orElseS o.refined d)) := by
  unfold generate_story
  rw [hd]
  cases ep <;> simp [hne, he]

/-- A line is malformed in the claim C8 sense: no colon, no pipe, or the
first pipe-segment does not split on `:` into name and description. -/
def malformedLine (line : Str) : Bool :=
  !(containsS line (str ":")) || !(containsS line (str "|")) ||
    decide ((splitChS ':' ((splitChS '|' line).headD [])).length < 2)

/-- A malformed line leaves the character mapping exactly as it was. -/
theorem processLine_malformed (chars : List (Str × Character)) (line : Str)
    (h : malformedLine line = true) : processLine chars line = chars := by
  simp only [malformedLine, Bool.or_eq_true, Bool.not_eq_true',
    decide_eq_true_eq] at h
  simp only [processLine]
  rcases h with (h | h) | h
  · simp [h]
  · simp [h]
  · split_ifs with hc hl
    · omega
    · rfl
    · rfl

/-- An extraction response all of whose lines are malformed records no
character and leaves the memory untouched. -/
theorem extract_characters_all_malformed (m : StoryMemory) (resp : Str)
    (h : ∀ line ∈ splitChS '\n' resp, malformedLine line = true) :
    extract_characters (some resp) m = m := by
  simp only [extract_characters]
  split_ifs with he
  · rfl
  · rw [foldl_fixed processLine (splitChS '\n' resp) m.characters
      (fun line hl chars => processLine_malformed chars line (h line hl))]

/-! ### Claim C7 -/

/-- C7: `revise_story_with_feedback` returns its input story unchanged —
exact identity, without calling the model — whenever the feedback text is
empty or the rating is at least 4, for every rating value 0 through 5. -/
theorem revise_noop_when_empty_or_high (o : Option Str) (story fbtext u : Str)
    (rating : Nat) (hr : rating ≤ 5) (h : fbtext = [] ∨ 4 ≤ rating) :
    revise_story_with_feedback o story { rating := rating, feedback := fbtext } u
      = (story, false) := by
  unfold revise_story_with_feedback
  rcases h with h | h
  · simp [h]
  · simp [h]

/-- Witness for C7 at rating 4 with non-empty feedback. -/
theorem revise_noop_when_empty_or_high_witness :
    (4 ≤ 5 ∧ (str "more cats" = [] ∨ 4 ≤ 4)) ∧
    revise_story_with_feedback (some (str "revised")) (str "story")
      { rating := 4, feedback := str "more cats" } (str "req")
      = (str "story", false) :=
  ⟨⟨by decide, Or.inr (by decide)⟩,
    revise_noop_when_empty_or_high (some (str "revised")) (str "story")
      (str "more cats") (str "req") 4 (by decide) (Or.inr (by decide))⟩

/-! ### Claim C8 -/

/-- C8: extraction processes lines independently and is total — a malformed
line (no colon, no pipe, or an unsplittable first segment) never changes the
character mapping, and a response all of whose lines are malformed records
zero characters and leaves the memory exactly as it was. -/
theorem extraction_malformed_lines_safe (chars : List (Str × Character))
    (line : Str) (m : StoryMemory) (resp : Str)
    (hline : malformedLine line = true)
    (hresp : ∀ l ∈ splitChS '\n' resp, malformedLine l = true) :
    processLine chars line = chars ∧ extract_characters (some resp) m = m :=
  ⟨processLine_malformed chars line hline,
   extract_characters_all_malformed m resp hresp⟩

/-- Witness for C8 on a concrete garbage response. -/
theorem extraction_malformed_lines_safe_witness :
    (malformedLine (str "no separators here") = true ∧
      (∀ l ∈ splitChS '\n' (str "garbage\nname only: no pipe\n| pipe: late"),
        malformedLine l = true)) ∧
    processLine [] (str "no separators here") = [] ∧
    extract_characters (some (str "garbage\nname only: no pipe\n| pipe: late")) {} = {} :=
  ⟨⟨by decide, by decide⟩,
    extraction_malformed_lines_safe [] (str "no separators here") {}
      (str "garbage\nname only: no pipe\n| pipe: late") (by decide) (by decide)⟩

/-! ### Claim C4 -/

/-- C4 counterexample: when the draft call returns the non-null empty string,
`generate_story` still returns null (`if not initial_story` treats the empty
string like a failure), so "returns null if and only if the draft call
returns null" is false. -/
theorem generate_story_null_iff_cex :
    (generate_story
        { draft := some [], evaluation := some (str "fine"), refined := some (str "r"),
          extraction := none }
        (str "req") {} false).story = none ∧
    some ([] : Str) ≠ (none : Option Str) := by
  constructor
  · decide
  · decide

/-- C4 (amended): `generate_story` returns null exactly when the draft result
is falsy (null or empty); a falsy evaluation or refinement result is
non-fatal and the non-empty draft text is then returned unchanged, for every
combination of backend results. -/
theorem generate_story_failure_semantics (o : GenOracle) (u : Str)
    (m : StoryMemory) (ep : Bool) :
    ((generate_story o u m ep).story = none ↔ isTruthy o.draft = false) ∧
    (∀ d, o.draft = some d → d.isEmpty = false → isTruthy o.evaluation = false →
      (generate_story o u m ep).story = some d) ∧
    (∀ d, o.draft = some d → d.isEmpty = false → isTruthy o.refined = false →
      (generate_story o u m ep).story = some d) :=
  ⟨generate_story_none_iff o u m ep,
   fun d hd hne he => (generate_story_eval_falsy o u m ep d hd hne he).1,
   fun d hd hne hr => generate_story_refine_falsy o u m ep d hd hne hr⟩

/-- Witness for C4 (amended) with a failing evaluation call. -/
theorem generate_story_failure_semantics_witness :
    ((generate_story
        { draft := some (str "draft"), evaluation := none, refined := none,
          extraction := none } (str "req") {} false).story = some (str "draft")) ∧
    (str "draft").isEmpty = false ∧
    isTruthy (none : Option Str) = false :=
  ⟨((generate_story_failure_semantics
      { draft := some (str "draft"), evaluation := none, refined := none,
        extraction := none } (str "req") {} false).2.1 (str "draft") rfl
      (by decide) (by decide)),
   by decide, by decide⟩

/-! ### Claim C1 -/

/-- C1 counterexample: with `is_episode = false`, a successful draft and a
failed evaluation call, `generate_story` returns a non-null story but the
Character Extractor is never run, so "extraction runs for every non-episode
call returning a non-null story" is false. -/
theorem extractor_skipped_on_eval_failure_cex :
    (generate_story
        { draft := some (str "d"), evaluation := none, refined := none,
          extraction := none } (str "req") {} false).story = some (str "d") ∧
    (generate_story
        { draft := some (str "d"), evaluation := none, refined := none,
          extraction := none } (str "req") {} false).extractedFrom = none := by
  constructor
  · decide
  · decide

/-- C1 (amended): with `is_episode = true` the Character Extractor is never
run; with `is_episode = false` it is run against exactly the final (possibly
refined) story text that is returned whenever both the draft and the
evaluation results are truthy, and it is not run when the evaluation result
is falsy. -/
theorem extractor_run_semantics (o : GenOracle) (u : Str) (m : StoryMemory) :
    ((generate_story o u m true).extractedFrom = none) ∧
    (isTruthy o.draft = true → isTruthy o.evaluation = true →
      (generate_story o u m false).extractedFrom =
        (generate_story o u m false).story ∧
      (generate_story o u m false).story ≠ none) ∧
    (isTruthy o.evaluation = false →
      (generate_story o u m false).extractedFrom = none) := by
  refine ⟨?_, ?_, ?_⟩
  · cases hd : o.draft with
    | none => simp [generate_story, hd]
    | some d =>
      by_cases hde : d.isEmpty
      · simp [generate_story, hd, hde]
      · by_cases he : isTruthy o.evaluation
        · exact (generate_story_success o u m true d hd
            (Bool.not_eq_true _ ▸ hde) he).2
        · exact (generate_story_eval_falsy o u m true d hd
            (Bool.not_eq_true _ ▸ hde) (Bool.not_eq_true _ ▸ he)).2
  · intro hd he
    cases hdr : o.draft with
    | none => simp [isTruthy, hdr] at hd
    | some d =>
      have hde : d.isEmpty = false := by
        rw [hdr] at hd
        simpa [isTruthy] using hd
      have h := generate_story_success o u m false d hdr hde he
      rw [h.1, h.2]
      simp
  · intro he
    cases hdr : o.draft with
    | none => simp [generate_story, hdr]
    | some d =>
      by_cases hde : d.isEmpty
      · simp [generate_story, hdr, hde]
      · exact (generate_story_eval_falsy o u m false d hdr
          (Bool.not_eq_true _ ▸ hde) he).2

/-- Witness for C1 (amended): a successful non-episode generation runs the
extractor on the refined story it returns. -/
theorem extractor_run_semantics_witness :
    (isTruthy (some (str "d")) = true ∧ isTruthy (some (str "e")) = true) ∧
    (generate_story
        { draft := some (str "d"), evaluation := some (str "e"),
          refined := some (str "r"), extraction := none }
        (str "req") {} false).extractedFrom =
      (generate_story
        { draft := some (str "d"), evaluation := some (str "e"),
          refined := some (str "r"), extraction := none }
        (str "req") {} false).story :=
  ⟨⟨by decide, by decide⟩,
    ((extractor_run_semantics
      { draft := some (str "d"), evaluation := some (str "e"),
        refined := some (str "r"), extraction := none }
      (str "req") {}).2.1 (by decide) (by decide)).1⟩

/-- A failed (falsy) draft makes the whole turn tail keep the session,
only adopting the memory `generate_story` left behind. -/
theorem runGeneration_failed (t : TurnInput) (ui : Str) (ep : Bool)
    (s : Session) (hdraft : isTruthy t.gen.draft = false) :
    runGeneration t ui ep s =
      { s with memory := (generate_story t.gen ui s.memory ep).memory } := by
  have h := (generate_story_none_iff t.gen ui s.memory ep).mpr hdraft
  simp only [runGeneration, h]

/-- A truthy draft makes the turn tail advance the story counter and stay in
the loop. -/
theorem runGeneration_succeeded (t : TurnInput) (ui : Str) (ep : Bool)
    (s : Session) (hdraft : isTruthy t.gen.draft = true) :
    (runGeneration t ui ep s).story_count = s.story_count + 1 ∧
    (runGeneration t ui ep s).done = false := by
  have h : (generate_story t.gen ui s.memory ep).story ≠ none := by
    rw [Ne, generate_story_none_iff]
    simp [hdraft]
  cases hs : (generate_story t.gen ui s.memory ep).story with
  | none => exact absurd hs h
  | some st => simp [runGeneration, hs]

/-- Unfolding of `continueTurn` on a non-quit, non-empty input. -/
theorem continueTurn_run (t : TurnInput) (ui : Str) (ep : Bool) (s : Session)
    (hq : isQuitKeyword ui = false) (hne : ui.isEmpty = false) :
    continueTurn t ui ep s = runGeneration t ui ep s := by
  simp [continueTurn, hq, hne]

/-! ### Claim C3 -/

/-- C3 counterexample: on the very first turn, request `learn` with a failed
draft call — generation returns null, yet the attempt has overwritten the
stored genre (`""` becomes `educational`), so the session state is not
unchanged. -/
theorem failed_generation_mutates_genre_cex :
    (generate_story
        { draft := none, evaluation := none, refined := none, extraction := none }
        (str "learn") initSession.memory false).story = none ∧
    (sessionStep
        { request := str "learn", assessment := none, choice := MenuChoice.one,
          gen := { draft := none, evaluation := none, refined := none,
                   extraction := none },
          rating_input := [], text_input := [], revision := none }
        initSession).memory.genre = str "educational" ∧
    initSession.memory.genre = [] ∧ str "educational" ≠ ([] : Str) := by
  refine ⟨by decide, by decide, by decide, by decide⟩

/-- C3 (amended): a turn whose generation attempt fails (falsy draft) keeps
`current_story`, `story_history`, `user_preferences`, `world_details`, the
story counter and the running flag exactly as they were; only `genre` (and,
on the new-story paths after the first story, the cleared `characters` map)
can differ. -/
theorem failed_generation_preserves_core (t : TurnInput) (s : Session)
    (hdone : s.done = false)
    (hq : isQuitKeyword (stripS t.request) = false)
    (hne : (stripS t.request).isEmpty = false)
    (hdraft : isTruthy t.gen.draft = false)
    (hch : t.choice ≠ MenuChoice.three) :
    (sessionStep t s).story_count = s.story_count ∧
    (sessionStep t s).done = false ∧
    (sessionStep t s).memory.current_story = s.memory.current_story ∧
    (sessionStep t s).memory.story_history = s.memory.story_history ∧
    (sessionStep t s).memory.user_preferences = s.memory.user_preferences ∧
    (sessionStep t s).memory.world_details = s.memory.world_details := by
  have hrun : ∀ ep : Bool, ∀ s2 : Session,
      continueTurn t (stripS t.request) ep s2 =
        { s2 with memory := (generate_story t.gen (stripS t.request) s2.memory ep).memory } := by
    intro ep s2
    rw [continueTurn_run t _ ep s2 hq hne, runGeneration_failed t _ ep s2 hdraft]
  have huntouched := fun (s2 : Session) (ep : Bool) =>
    generate_story_untouched_fields t.gen (stripS t.request) s2.memory ep
  simp only [sessionStep, hdone, Bool.false_eq_true, if_false]
  by_cases hc : s.story_count = 0
  · rw [if_pos hc, hrun false s]
    exact ⟨rfl, hdone, (huntouched s false).1, (huntouched s false).2.1,
      (huntouched s false).2.2.1, (huntouched s false).2.2.2⟩
  · rw [if_neg hc]
    by_cases ha : assess_story_quality t.assessment
    · rw [if_pos ha]
      cases hchoice : t.choice with
      | one =>
        rw [hrun true s]
        exact ⟨rfl, hdone, (huntouched s true).1, (huntouched s true).2.1,
          (huntouched s true).2.2.1, (huntouched s true).2.2.2⟩
      | two =>
        rw [hrun false (clearCharacters s)]
        exact ⟨rfl, hdone, (huntouched (clearCharacters s) false).1,
          (huntouched (clearCharacters s) false).2.1,
          (huntouched (clearCharacters s) false).2.2.1,
          (huntouched (clearCharacters s) false).2.2.2⟩
      | three => exact absurd hchoice hch
    · rw [if_neg ha, hrun false (clearCharacters s)]
      exact ⟨rfl, hdone, (huntouched (clearCharacters s) false).1,
        (huntouched (clearCharacters s) false).2.1,
        (huntouched (clearCharacters s) false).2.2.1,
        (huntouched (clearCharacters s) false).2.2.2⟩

/-- Witness for C3 (amended) on the concrete failing first turn. -/
theorem failed_generation_preserves_core_witness :
    (initSession.done = false ∧
      isQuitKeyword (stripS (str "learn")) = false ∧
      (stripS (str "learn")).isEmpty = false ∧
      MenuChoice.one ≠ MenuChoice.three) ∧
    (sessionStep
        { request := str "learn", assessment := none, choice := MenuChoice.one,
          gen := { draft := none, evaluation := none, refined := none,
                   extraction := none },
          rating_input := [], text_input := [], revision := none }
        initSession).story_count = initSession.story_count :=
  ⟨⟨by decide, by decide, by decide, by decide⟩,
    (failed_generation_preserves_core
      { request := str "learn", assessment := none, choice := MenuChoice.one,
        gen := { draft := none, evaluation := none, refined := none,
                 extraction := none },
        rating_input := [], text_input := [], revision := none }
      initSession (by decide) (by decide) (by decide) (by decide) (by decide)).1⟩

/-! ### Claim C6 -/

/-- C6 counterexample: from the initial `AwaitingFirstRequest` state, an
empty input followed by a second empty input (i.e. empty again after the
reprompt) leaves the session in `AwaitingFirstRequest` — it never moves to
`Done`. -/
theorem empty_request_stays_awaiting_cex :
    Session.phase
      (sessionStep
        { request := [], assessment := none, choice := MenuChoice.one,
          gen := { draft := none, evaluation := none, refined := none,
                   extraction := none },
          rating_input := [], text_input := [], revision := none }
        (sessionStep
          { request := [], assessment := none, choice := MenuChoice.one,
            gen := { draft := none, evaluation := none, refined := none,
                     extraction := none },
            rating_input := [], text_input := [], revision := none }
          initSession)) = Phase.AwaitingFirstRequest ∧
    Phase.AwaitingFirstRequest ≠ Phase.Done := by
  refine ⟨by decide, by decide⟩

/-- C6 (amended): from `AwaitingFirstRequest`, a quit keyword moves the
session to `Done`; an empty input leaves the session state entirely
unchanged (still `AwaitingFirstRequest`, reprompting — it never reaches
`Done` this way); any other input attempts a non-episode story and moves to
`AwaitingNextAction` exactly when generation succeeds (truthy draft),
remaining in `AwaitingFirstRequest` when it fails. -/
theorem first_request_transitions (t : TurnInput) (s : Session)
    (hdone : s.done = false) (hcount : s.story_count = 0) :
    (isQuitKeyword (stripS t.request) = true →
      (sessionStep t s).phase = Phase.Done) ∧
    ((stripS t.request).isEmpty = true →
      sessionStep t s = s ∧ (sessionStep t s).phase = Phase.AwaitingFirstRequest) ∧
    (isQuitKeyword (stripS t.request) = false → (stripS t.request).isEmpty = false →
      isTruthy t.gen.draft = true →
      (sessionStep t s).phase = Phase.AwaitingNextAction) ∧
    (isQuitKeyword (stripS t.request) = false → (stripS t.request).isEmpty = false →
      isTruthy t.gen.draft = false →
      (sessionStep t s).phase = Phase.AwaitingFirstRequest) := by
  have hstep : sessionStep t s = continueTurn t (stripS t.request) false s := by
    simp [sessionStep, hdone, hcount]
  refine ⟨?_, ?_, ?_, ?_⟩
  · intro hq
    rw [hstep]
    simp [continueTurn, hq, Session.phase]
  · intro he
    have hq : isQuitKeyword (stripS t.request) = false := by
      have : stripS t.request = [] := by simpa using he
      rw [this]
      decide
    have hs : sessionStep t s = s := by
      rw [hstep]
      simp [continueTurn, hq, he]
    refine ⟨hs, ?_⟩
    rw [hs]
    simp [Session.phase, hdone, hcount]
  · intro hq hne hdraft
    rw [hstep, continueTurn_run t _ false s hq hne]
    have h := runGeneration_succeeded t (stripS t.request) false s hdraft
    simp [Session.phase, h.1, h.2]
  · intro hq hne hdraft
    rw [hstep, continueTurn_run t _ false s hq hne,
      runGeneration_failed t _ false s hdraft]
    simp [Session.phase, hdone, hcount]

/-- Witness for C6 (amended): a quit keyword from the first prompt ends the
session. -/
theorem first_request_transitions_witness :
    (initSession.done = false ∧ initSession.story_count = 0 ∧
      isQuitKeyword (stripS (str "Quit")) = true) ∧
    Session.phase
      (sessionStep
        { request := str "Quit", assessment := none, choice := MenuChoice.one,
          gen := { draft := none, evaluation := none, refined := none,
                   extraction := none },
          rating_input := [], text_input := [], revision := none }
        initSession) = Phase.Done :=
  ⟨⟨by decide, by decide, by decide⟩,
    (first_request_transitions
      { request := str "Quit", assessment := none, choice := MenuChoice.one,
        gen := { draft := none, evaluation := none, refined := none,
                 extraction := none },
        rating_input := [], text_input := [], revision := none }
      initSession (by decide) (by decide)).1 (by decide)⟩

/-! ### Claim C9 -/

/-- Every stored character record has an empty relationships mapping. -/
def charsRelEmpty (chars : List (Str × Character)) : Bool :=
  chars.all (fun p => p.2.relationships.isEmpty)

/-- `dictSet` keeps `charsRelEmpty` when the inserted record has no
relationships. -/
theorem dictSet_rel_empty (k : Str) (v : Character)
    (l : List (Str × Character)) (hl : charsRelEmpty l = true)
    (hv : v.relationships = []) : charsRelEmpty (dictSet k v l) = true := by
  induction l with
  | nil => simp [dictSet, charsRelEmpty, hv]
  | cons p rest ih =>
    simp only [charsRelEmpty, List.all_cons, Bool.and_eq_true] at hl
    simp only [dictSet]
    split_ifs with hk
    · simp [charsRelEmpty, List.all_cons, hv, hl.2]
    · have := ih hl.2
      simp only [charsRelEmpty, List.all_cons, Bool.and_eq_true]
      exact ⟨hl.1, this⟩

/-- `processLine` keeps `charsRelEmpty`: the record it writes always has
`relationships = []`. -/
theorem processLine_rel_empty (chars : List (Str × Character)) (line : Str)
    (h : charsRelEmpty chars = true) :
    charsRelEmpty (processLine chars line) = true := by
  simp only [processLine]
  split_ifs with hc hl
  · exact dictSet_rel_empty _ _ chars h rfl
  · exact h
  · exact h

/-- The extraction loop keeps `charsRelEmpty`. -/
theorem foldl_processLine_rel_empty (lines : List Str)
    (chars : List (Str × Character)) (h : charsRelEmpty chars = true) :
    charsRelEmpty (lines.foldl processLine chars) = true := by
  induction lines generalizing chars with
  | nil => exact h
  | cons l ls ih => exact ih _ (processLine_rel_empty chars l h)

/-- `extract_characters` keeps `charsRelEmpty`. -/
theorem extract_characters_rel_empty (x : Option Str) (m : StoryMemory)
    (h : charsRelEmpty m.characters = true) :
    charsRelEmpty (extract_characters x m).characters = true := by
  cases x with
  | none => exact h
  | some resp =>
    simp only [extract_characters]
    split_ifs with he
    · exact h
    · exact foldl_processLine_rel_empty _ _ h

/-- `generate_story` keeps `charsRelEmpty`. -/
theorem generate_story_rel_empty (o : GenOracle) (u : Str) (m : StoryMemory)
    (ep : Bool) (h : charsRelEmpty m.characters = true) :
    charsRelEmpty (generate_story o u m ep).memory.characters = true := by
  unfold generate_story
  cases o.draft with
  | none => cases ep <;> simpa using h
  | some d =>
    cases ep <;> simp only [] <;> split_ifs <;>
      first
        | simpa using h
        | exact extract_characters_rel_empty o.extraction _ (by simpa using h)

/-- One session step keeps `charsRelEmpty`. -/
theorem sessionStep_rel_empty (t : TurnInput) (s : Session)
    (h : charsRelEmpty s.memory.characters = true) :
    charsRelEmpty (sessionStep t s).memory.characters = true := by
  have hrun : ∀ ui ep (s2 : Session), charsRelEmpty s2.memory.characters = true →
      charsRelEmpty (runGeneration t ui ep s2).memory.characters = true := by
    intro ui ep s2 h2
    cases hs : (generate_story t.gen ui s2.memory ep).story with
    | none =>
      simp only [runGeneration, hs]
      exact generate_story_rel_empty t.gen ui s2.memory ep h2
    | some st =>
      simp only [runGeneration, hs]
      split_ifs <;>
        simpa [StoryMemory.add_story] using
          generate_story_rel_empty t.gen ui s2.memory ep h2
  have hcont : ∀ ui ep (s2 : Session), charsRelEmpty s2.memory.characters = true →
      charsRelEmpty (continueTurn t ui ep s2).memory.characters = true := by
    intro ui ep s2 h2
    unfold continueTurn
    split_ifs with hq he
    · exact h2
    · exact h2
    · exact hrun ui ep s2 h2
  have hclear : charsRelEmpty (clearCharacters s).memory.characters = true := by
    simp [clearCharacters, charsRelEmpty]
  unfold sessionStep
  split_ifs with hd hc ha
  · exact h
  · exact hcont _ false s h
  · cases t.choice with
    | one => exact hcont _ true s h
    | two => exact hcont _ false (clearCharacters s) hclear
    | three => exact h
  · exact hcont _ false (clearCharacters s) hclear

/-- C9: in every reachable session state, every stored `Character` record
has an empty `relationships` mapping — relationship data is requested in the
extraction prompt but never parsed into the structured record. -/
theorem characters_relationships_always_empty (ts : List TurnInput) :
    charsRelEmpty (runSession ts).memory.characters = true := by
  unfold runSession
  have key : ∀ s : Session, charsRelEmpty s.memory.characters = true →
      charsRelEmpty ((ts.foldl (fun s t => sessionStep t s) s)).memory.characters
        = true := by
    induction ts with
    | nil => exact fun s h => h
    | cons t ts ih =>
      intro s h
      exact ih (sessionStep t s) (sessionStep_rel_empty t s h)
  exact key initSession (by decide)

/-! ### Claim C10 -/

/-- The C10 invariant: whenever the history is non-empty, `current_story`
equals the `story` field of the most recently appended record. -/
def currentMatchesHistory (m : StoryMemory) : Bool :=
  match m.story_history.getLast? with
  | none => true
  | some r => r.story == m.current_story

/-- `add_story` establishes the C10 invariant: it appends the record and
sets `current_story` to the same story, together. -/
theorem add_story_matches (m : StoryMemory) (story genre req : Str) (q : Nat) :
    currentMatchesHistory (m.add_story story genre req q) = true := by
  simp [currentMatchesHistory, StoryMemory.add_story, List.getLast?_concat]

/-- One session step keeps the C10 invariant. -/
theorem sessionStep_matches (t : TurnInput) (s : Session)
    (h : currentMatchesHistory s.memory = true) :
    currentMatchesHistory (sessionStep t s).memory = true := by
  have hrun : ∀ ui ep (s2 : Session), currentMatchesHistory s2.memory = true →
      currentMatchesHistory (runGeneration t ui ep s2).memory = true := by
    intro ui ep s2 h2
    have hu := generate_story_untouched_fields t.gen ui s2.memory ep
    cases hs : (generate_story t.gen ui s2.memory ep).story with
    | none =>
      simp only [runGeneration, hs]
      unfold currentMatchesHistory at h2 ⊢
      rw [hu.2.1, hu.1]
      exact h2
    | some st =>
      simp only [runGeneration, hs]
      split_ifs <;> exact add_story_matches _ _ _ _ _
  have hcont : ∀ ui ep (s2 : Session), currentMatchesHistory s2.memory = true →
      currentMatchesHistory (continueTurn t ui ep s2).memory = true := by
    intro ui ep s2 h2
    unfold continueTurn
    split_ifs with hq he
    · exact h2
    · exact h2
    · exact hrun ui ep s2 h2
  have hclear : currentMatchesHistory (clearCharacters s).memory = true := h
  unfold sessionStep
  split_ifs with hd hc ha
  · exact h
  · exact hcont _ false s h
  · cases t.choice with
    | one => exact hcont _ true s h
    | two => exact hcont _ false (clearCharacters s) hclear
    | three => exact h
  · exact hcont _ false (clearCharacters s) hclear

/-- C10: in every reachable session state, whenever `story_history` is
non-empty, `current_story` equals the `story` field of its most recently
appended record — `add_story` writes both together, so they never diverge. -/
theorem current_story_matches_history_tail (ts : List TurnInput) :
    currentMatchesHistory (runSession ts).memory = true := by
  unfold runSession
  have key : ∀ s : Session, currentMatchesHistory s.memory = true →
      currentMatchesHistory ((ts.foldl (fun s t => sessionStep t s) s)).memory
        = true := by
    induction ts with
    | nil => exact fun s h => h
    | cons t ts ih =>
      intro s h
      exact ih (sessionStep t s) (sessionStep_matches t s h)
  exact key initSession (by decide)

/-! ### Claims C2 and C5 -/

/-- A keyword list none of whose members occurs in the request scores 0. -/
theorem genreScore_eq_zero (rl : Str) (kws : List Str)
    (h : ∀ kw ∈ kws, containsS rl kw = false) : genreScore rl kws = 0 := by
  unfold genreScore
  rw [List.length_eq_zero, List.filter_eq_nil_iff]
  intro kw hkw
  simp [h kw hkw]

/-- A keyword list with at least one occurring member scores positively. -/
theorem genreScore_pos (rl : Str) (kws : List Str)
    (h : ∃ kw ∈ kws, containsS rl kw = true) : 0 < genreScore rl kws := by
  obtain ⟨kw, hkw, hc⟩ := h
  unfold genreScore
  exact List.length_pos.mpr (List.ne_nil_of_mem (List.mem_filter.mpr ⟨hkw, hc⟩))

/-- C2: for every request whose lower-cased text contains at least one
keyword of one genre of the table and no keyword (as a substring) of any
other genre, `detect_genre` returns that genre. -/
theorem detect_genre_unique_keywords (req g : Str) (kws : List Str)
    (hmem : (g, kws) ∈ genre_keywords)
    (hpos : ∃ kw ∈ kws, containsS (lowerS req) kw = true)
    (hneg : ∀ p ∈ genre_keywords, p.1 ≠ g →
      ∀ kw ∈ p.2, containsS (lowerS req) kw = false) :
    detect_genre req = g := by
  have hsc := genreScore_pos (lowerS req) kws hpos
  simp only [genre_keywords, List.mem_cons, List.not_mem_nil, or_false,
    Prod.mk.injEq] at hmem
  rcases hmem with ⟨hg, hk⟩ | ⟨hg, hk⟩ | ⟨hg, hk⟩ | ⟨hg, hk⟩ | ⟨hg, hk⟩ <;>
      subst hg <;> subst hk <;>
      unfold detect_genre genreScores genre_keywords maxByScore <;>
      simp only [List.map, List.foldl]
  · rw [genreScore_eq_zero (lowerS req) fairyTaleKws
        (hneg (str "fairy_tale", fairyTaleKws) (by simp [genre_keywords]) (by decide)),
      genreScore_eq_zero (lowerS req) educationalKws
        (hneg (str "educational", educationalKws) (by simp [genre_keywords]) (by decide)),
      genreScore_eq_zero (lowerS req) friendshipKws
        (hneg (str "friendship", friendshipKws) (by simp [genre_keywords]) (by decide)),
      genreScore_eq_zero (lowerS req) fantasyKws
        (hneg (str "fantasy", fantasyKws) (by simp [genre_keywords]) (by decide))]
    split_ifs <;> first | rfl | (exfalso; omega)
  · rw [genreScore_eq_zero (lowerS req) adventureKws
        (hneg (str "adventure", adventureKws) (by simp [genre_keywords]) (by decide)),
      genreScore_eq_zero (lowerS req) educationalKws
        (hneg (str "educational", educationalKws) (by simp [genre_keywords]) (by decide)),
      genreScore_eq_zero (lowerS req) friendshipKws
        (hneg (str "friendship", friendshipKws) (by simp [genre_keywords]) (by decide)),
      genreScore_eq_zero (lowerS req) fantasyKws
        (hneg (str "fantasy", fantasyKws) (by simp [genre_keywords]) (by decide))]
    split_ifs <;> first | rfl | (exfalso; omega)
  · rw [genreScore_eq_zero (lowerS req) adventureKws
        (hneg (str "adventure", adventureKws) (by simp [genre_keywords]) (by decide)),
      genreScore_eq_zero (lowerS req) fairyTaleKws
        (hneg (str "fairy_tale", fairyTaleKws) (by simp [genre_keywords]) (by decide)),
      genreScore_eq_zero (lowerS req) friendshipKws
        (hneg (str "friendship", friendshipKws) (by simp [genre_keywords]) (by decide)),
      genreScore_eq_zero (lowerS req) fantasyKws
        (hneg (str "fantasy", fantasyKws) (by simp [genre_keywords]) (by decide))]
    split_ifs <;> first | rfl | (exfalso; omega)
  · rw [genreScore_eq_zero (lowerS req) adventureKws
        (hneg (str "adventure", adventureKws) (by simp [genre_keywords]) (by decide)),
      genreScore_eq_zero (lowerS req) fairyTaleKws
        (hneg (str "fairy_tale", fairyTaleKws) (by simp [genre_keywords]) (by decide)),
      genreScore_eq_zero (lowerS req) educationalKws
        (hneg (str "educational", educationalKws) (by simp [genre_keywords]) (by decide)),
      genreScore_eq_zero (lowerS req) fantasyKws
        (hneg (str "fantasy", fantasyKws) (by simp [genre_keywords]) (by decide))]
    split_ifs <;> first | rfl | (exfalso; omega)
  · rw [genreScore_eq_zero (lowerS req) adventureKws
        (hneg (str "adventure", adventureKws) (by simp [genre_keywords]) (by decide)),
      genreScore_eq_zero (lowerS req) fairyTaleKws
        (hneg (str "fairy_tale", fairyTaleKws) (by simp [genre_keywords]) (by decide)),
      genreScore_eq_zero (lowerS req) educationalKws
        (hneg (str "educational", educationalKws) (by simp [genre_keywords]) (by decide)),
      genreScore_eq_zero (lowerS req) friendshipKws
        (hneg (str "friendship", friendshipKws) (by simp [genre_keywords]) (by decide))]
    split_ifs <;> first | rfl | (exfalso; omega)

set_option maxHeartbeats 1600000 in
/-- Witness for C2: the request `wizard` contains a `fantasy` keyword and no
keyword of any other genre, and is classified as `fantasy`. -/
theorem detect_genre_unique_keywords_witness :
    (∃ kw ∈ fantasyKws, containsS (lowerS (str "wizard")) kw = true) ∧
    detect_genre (str "wizard") = str "fantasy" :=
  ⟨by decide,
    detect_genre_unique_keywords (str "wizard") (str "fantasy") fantasyKws
      (by decide) (by decide) (by decide)⟩

set_option maxHeartbeats 3200000 in
/-- Python first-maximum selection agrees with "first entry attaining the
maximal count, `adventure` on all-zero", for any five table entries. -/
theorem maxByScore_vs_firstWithScore (g1 g2 g3 g4 g5 : Str)
    (s1 s2 s3 s4 s5 : Nat) :
    (if ([(g2, s2), (g3, s3), (g4, s4), (g5, s5)].foldl
          (fun acc q => if q.2 > acc.2 then q else acc) (g1, s1)).2 > 0 then
      ([(g2, s2), (g3, s3), (g4, s4), (g5, s5)].foldl
          (fun acc q => if q.2 > acc.2 then q else acc) (g1, s1)).1
     else str "adventure")
    = (if ([(g1, s1), (g2, s2), (g3, s3), (g4, s4), (g5, s5)].foldl
            (fun a p => max a p.2) 0) = 0 then str "adventure"
       else firstWithScore
            ([(g1, s1), (g2, s2), (g3, s3), (g4, s4), (g5, s5)].foldl
              (fun a p => max a p.2) 0)
            [(g1, s1), (g2, s2), (g3, s3), (g4, s4), (g5, s5)]) := by
  simp only [List.foldl, firstWithScore]
  split_ifs <;> first | rfl | (exfalso; omega)

/-- C5: `detect_genre` agrees everywhere with the spec-side description —
highest count wins, ties are broken by the definition order of the genre
table, and all-zero counts (including the empty request) yield
`adventure`. -/
theorem detect_genre_agrees_specModel (u : Str) :
    detect_genre u = detect_genre_specModel u := by
  unfold detect_genre detect_genre_specModel genreScores genre_keywords maxByScore
  simp only [List.map]
  exact maxByScore_vs_firstWithScore _ _ _ _ _ _ _ _ _ _
